import Mathlib

/-!
Verification development for the kitt debugger core (Rust sources under
src/).  The process controller (src/process.rs) and the register
marshaling layer (src/registers.rs, src/registers/values.rs,
src/reg_macros.rs) are shallowly embedded here: pure control flow is
translated into Lean functions, OS syscalls become explicit oracles or
recorded events, Rust panics become explicit `panic`/`none` outcomes, and
fallible paths return `Except`/`Option`.
-/

namespace Kitt

/-! ## Process controller data model (src/process.rs) -/

/-- `ProcessState` from src/process.rs lines 13-20. -/
inductive PState
  | Stopped
  | Running
  | Exited
  | Terminated
  | FailedToLaunch
deriving DecidableEq

/-- The signals the controller mentions (nix `Signal`); `name` below is the
nix `Display` rendering used by `StopCause`. -/
inductive Signal
  | SIGSTOP
  | SIGCONT
  | SIGKILL
  | SIGTRAP
  | SIGINT
  | SIGSEGV
deriving DecidableEq

def Signal.name : Signal → String
  | .SIGSTOP => "SIGSTOP"
  | .SIGCONT => "SIGCONT"
  | .SIGKILL => "SIGKILL"
  | .SIGTRAP => "SIGTRAP"
  | .SIGINT => "SIGINT"
  | .SIGSEGV => "SIGSEGV"

/-- OS error numbers surfaced by nix syscall wrappers. -/
inductive Errno
  | ESRCH
  | ECHILD
  | EPERM
deriving DecidableEq

/-- `StopCause` from src/process.rs lines 22-25. -/
inductive StopCause
  | signal (s : Signal)
  | code (c : Int)
deriving DecidableEq

/-- `impl Display for StopCause`, src/process.rs lines 27-34:
`"signal {signal}"` / `"exit code {code}"`. -/
def StopCause.render : StopCause → String
  | .signal s => "signal " ++ s.name
  | .code c => "exit code " ++ toString c

/-- `StopReason` from src/process.rs lines 36-39. -/
structure StopReason where
  process_state : PState
  stop_cause : StopCause
deriving DecidableEq

/-- `impl Display for StopReason`, src/process.rs lines 61-70, rendered
verbatim from the source; the `Running`/`FailedToLaunch` arms hit
`unreachable!` (modelled as `none`). -/
def StopReason.render : StopReason → Option String
  | ⟨.Stopped, c⟩ => some ("stopped with cause " ++ c.render)
  | ⟨.Exited, c⟩ => some ("terminated with signal " ++ c.render)
  | ⟨.Terminated, c⟩ => some ("stopped with signal " ++ c.render)
  | ⟨.Running, _⟩ => none
  | ⟨.FailedToLaunch, _⟩ => none

/-- nix `WaitStatus`: every variant `waitpid` can report. -/
inductive WaitStatus
  | exited (pid : Int) (c : Int)
  | signaled (pid : Int) (s : Signal) (coreDump : Bool)
  | stopped (pid : Int) (s : Signal)
  | ptraceEvent (pid : Int) (s : Signal) (ev : Int)
  | ptraceSyscall (pid : Int)
  | continued (pid : Int)
  | stillAlive
deriving DecidableEq

/-- `StopReason::new`, src/process.rs lines 41-59.  The catch-all arm of
the Rust `match` is `panic!`, modelled as `none`. -/
def StopReason.mk? : WaitStatus → Option StopReason
  | .exited _ c => some ⟨.Exited, .code c⟩
  | .signaled _ s _ => some ⟨.Terminated, .signal s⟩
  | .stopped _ s => some ⟨.Stopped, .signal s⟩
  | _ => none

/-- `Process` from src/process.rs lines 99-104 (`TerminateOnEnd` and
`IsAttached` are two-valued enums, embedded as `Bool`). -/
structure Process where
  pid : Int
  state : PState
  terminate_on_end : Bool
  is_attached : Bool
deriving DecidableEq

/-- Outcome of `Process::wait_on_signal`: a propagated waitpid error, the
`panic!` inside `StopReason::new`, or success carrying the updated
controller and the reason. -/
inductive WaitOutcome
  | err (e : Errno)
  | panic
  | ok (p : Process) (r : StopReason)
deriving DecidableEq

/-- `Process::wait_on_signal`, src/process.rs lines 178-183: waitpid's
result is passed in as `wr`; on success the raw status is mapped through
`StopReason::new` and `self.state` is set to the reason's state. -/
def Process.wait_on_signal (p : Process) (wr : Except Errno WaitStatus) : WaitOutcome :=
  match wr with
  | .error e => .err e
  | .ok ws =>
    match StopReason.mk? ws with
    | none => .panic
    | some r => .ok { p with state := r.process_state } r

/-! ## Claim theorems: C2, C6, C10 -/

/-- Claim C2: the spec says `StopReason` renders as
"stopped with cause signal (name)" for `Stopped`,
"terminated with signal (name)" for `Terminated`, and
"terminated with exit code (n)" for `Exited`.  The source's `Display`
(src/process.rs lines 61-70) gets `Stopped` right but renders `Exited`
as "terminated with signal exit code (n)" and `Terminated` as
"stopped with signal signal (name)", so the claim fails on the code; this
theorem evaluates the embedded renderer at the failing inputs. -/
theorem c2_display_bug_eval :
    StopReason.render ⟨.Stopped, .signal .SIGTRAP⟩ = some "stopped with cause signal SIGTRAP" ∧
    StopReason.render ⟨.Exited, .code 0⟩ = some "terminated with signal exit code 0" ∧
    StopReason.render ⟨.Terminated, .signal .SIGKILL⟩ = some "stopped with signal signal SIGKILL" ∧
    StopReason.render ⟨.Exited, .code 0⟩ ≠ some "terminated with exit code 0" ∧
    StopReason.render ⟨.Terminated, .signal .SIGKILL⟩ ≠ some "terminated with signal SIGKILL" := by
  refine ⟨rfl, rfl, rfl, ?_, ?_⟩ <;> decide

/-- Claim C6: `StopReason::new` maps a normal exit to `Exited` with the
exit code as cause, a kill-by-signal to `Terminated` with the signal as
cause, and a stop-by-signal to `Stopped` with the signal as cause; and
`wait_on_signal` copies the reason's resulting state into the
controller's own state. -/
theorem c6_wait_maps_status :
    (∀ pid c, StopReason.mk? (.exited pid c) = some ⟨.Exited, .code c⟩) ∧
    (∀ pid s cd, StopReason.mk? (.signaled pid s cd) = some ⟨.Terminated, .signal s⟩) ∧
    (∀ pid s, StopReason.mk? (.stopped pid s) = some ⟨.Stopped, .signal s⟩) ∧
    (∀ (p : Process) (wr : Except Errno WaitStatus) (q : Process) (r : StopReason),
      p.wait_on_signal wr = .ok q r → q.state = r.process_state) := by
  refine ⟨fun _ _ => rfl, fun _ _ _ => rfl, fun _ _ => rfl, ?_⟩
  intro p wr q r h
  match wr with
  | .error e => exact absurd h (by simp [Process.wait_on_signal])
  | .ok ws =>
    cases ws <;> simp [Process.wait_on_signal, StopReason.mk?] at h <;>
      obtain ⟨hq, hr⟩ := h <;> subst hq <;> subst hr <;> rfl

/-- Witness for C6 at a concrete input: waiting on a reported exit with
code 0 yields a controller in state `Exited`, equal to the reason's
resulting state. -/
theorem c6_wait_maps_status_witness :
    (⟨1, .Exited, true, true⟩ : Process).state =
      (⟨.Exited, .code 0⟩ : StopReason).process_state :=
  c6_wait_maps_status.2.2.2 ⟨1, .Stopped, true, true⟩ (.ok (.exited 1 0))
    ⟨1, .Exited, true, true⟩ ⟨.Exited, .code 0⟩ rfl

/-- The wait statuses that `StopReason::new` handles without panicking. -/
def WaitStatus.isHandled : WaitStatus → Bool
  | .exited _ _ => true
  | .signaled _ _ _ => true
  | .stopped _ _ => true
  | _ => false

/-- Claim C10: any wait status other than exited, killed-by-signal, or
stopped-by-signal (e.g. a continued notification or a ptrace event) makes
`StopReason::new` hit its `panic!` arm, so `wait_on_signal` aborts rather
than returning an error or a `StopReason`. -/
theorem c10_unexpected_status_panics :
    ∀ ws : WaitStatus, ws.isHandled = false →
      StopReason.mk? ws = none ∧
      ∀ p : Process, p.wait_on_signal (.ok ws) = .panic := by
  intro ws h
  cases ws <;> simp [WaitStatus.isHandled] at h <;>
    exact ⟨rfl, fun _ => rfl⟩

/-- Witness for C10 at the concrete status `Continued(7)`. -/
theorem c10_unexpected_status_panics_witness :
    StopReason.mk? (.continued 7) = none ∧
    Process.wait_on_signal ⟨1, .Stopped, true, true⟩ (.ok (.continued 7)) = .panic :=
  ⟨(c10_unexpected_status_panics (.continued 7) rfl).1,
   (c10_unexpected_status_panics (.continued 7) rfl).2 ⟨1, .Stopped, true, true⟩⟩

/-! ## Attach, launch and disposal (src/process.rs lines 122-220) -/

/-- The syscalls the controller issues against the tracee, recorded as
events so that ordering and absence can be stated. -/
inductive Syscall
  | ptraceAttach (pid : Int)
  | waitpid (pid : Int)
  | ptraceDetach (pid : Int)
  | kill (pid : Int) (s : Signal)
deriving DecidableEq

/-- The nix `Errno` display string, used when a syscall error propagates
into an anyhow error message. -/
def Errno.name : Errno → String
  | .ESRCH => "ESRCH: No such process"
  | .ECHILD => "ECHILD: No child processes"
  | .EPERM => "EPERM: Operation not permitted"

/-- The OS responses the controller consumes: what `ptrace::attach`
returns for a pid, and what `waitpid` reports. -/
structure Os where
  attachRes : Int → Except Errno Unit
  waitRes : Int → Except Errno WaitStatus

/-- Result of `Process::attach`. -/
inductive AttachResult
  | err (e : Errno)
  | panic
  | ok (p : Process)
deriving DecidableEq

/-- `Process::attach`, src/process.rs lines 161-167: `ptrace::attach(pid)?`
is issued unconditionally (there is no check for pid 0), then a controller
with `TerminateOnEnd::NO`, `IsAttached::YES` is built and the resulting
stop is consumed with `wait_on_signal`.  The first component records the
syscalls issued. -/
def Process.attach (os : Os) (pid : Int) : List Syscall × AttachResult :=
  match os.attachRes pid with
  | .error e => ([.ptraceAttach pid], .err e)
  | .ok _ =>
    let proc : Process := ⟨pid, .Stopped, false, true⟩
    match proc.wait_on_signal (os.waitRes pid) with
    | .err e => ([.ptraceAttach pid, .waitpid pid], .err e)
    | .panic => ([.ptraceAttach pid, .waitpid pid], .panic)
    | .ok q _ => ([.ptraceAttach pid, .waitpid pid], .ok q)

/-- A concrete OS oracle on which every ptrace attach fails with `ESRCH`,
as the real kernel does for pid 0 (the repository's own test
`attach_to_invalid_pid` asserts exactly this `ESRCH` outcome). -/
def osEsrch : Os := ⟨fun _ => .error .ESRCH, fun _ => .error .ESRCH⟩

/-- Result of `Process::launch` as seen by the parent. -/
inductive LaunchResult
  | err (msg : String)
  | panic
  | ok (p : Process)
deriving DecidableEq

/-- The parent half of `Process::launch`, src/process.rs lines 126-141:
the controller is created with `TerminateOnEnd::YES`; `pipeMsg` is what
`read_from_pipe` returned after the child's exec attempt; a non-empty
message sets the state to `FailedToLaunch` and bails with
`"child failed to launch: {msg}"`; an empty message performs the initial
`wait_on_signal` when launching in debug mode.  The second component is
the controller value as it exists when `launch` returns (the value whose
`Drop` will run). -/
def Process.launchParent (childPid : Int) (debug : Bool) (pipeMsg : String)
    (wr : Except Errno WaitStatus) : LaunchResult × Process :=
  let proc : Process := ⟨childPid, .Stopped, true, debug⟩
  if pipeMsg = "" then
    if debug then
      match proc.wait_on_signal wr with
      | .err e => (.err e.name, proc)
      | .panic => (.panic, proc)
      | .ok q _ => (.ok q, q)
    else (.ok proc, proc)
  else
    let failed : Process := { proc with state := .FailedToLaunch }
    (.err ("child failed to launch: " ++ pipeMsg), failed)

/-- `impl Drop for Process`, src/process.rs lines 186-220, as the list of
syscalls issued: nothing for pid 0 or a terminal state; otherwise, when
attached, a running tracee is first stopped (SIGSTOP then a blocking
waitpid) before `ptrace::detach` and SIGCONT; finally, when the controller
owns the lifetime, SIGKILL and a reaping waitpid. -/
def Process.dropSyscalls (p : Process) : List Syscall :=
  if p.pid = 0 then []
  else if p.state = .Exited ∨ p.state = .Terminated ∨ p.state = .FailedToLaunch then []
  else
    (if p.is_attached then
      (if p.state = .Running then [.kill p.pid .SIGSTOP, .waitpid p.pid] else [])
        ++ [.ptraceDetach p.pid, .kill p.pid .SIGCONT]
     else [])
      ++ (if p.terminate_on_end then [.kill p.pid .SIGKILL, .waitpid p.pid] else [])

/-! ## Claim theorems: C3, C4, C5 -/

/-- Counterexample for claim C3: attaching to pid 0 is claimed to fail
with `InvalidTarget` and to perform no attach syscall; on the embedded
code the ptrace-attach syscall IS issued (the recorded syscall list is
non-empty, consisting of that attach), and the failure is the propagated
OS error `ESRCH`, not an `InvalidTarget` check. -/
theorem c3_attach_zero_counterexample :
    (Process.attach osEsrch 0).1 = [.ptraceAttach 0] ∧
    (Process.attach osEsrch 0).1 ≠ [] ∧
    (Process.attach osEsrch 0).2 = .err .ESRCH :=
  ⟨rfl, by decide, rfl⟩

/-- Claim C3 amended: `attach` issues the ptrace-attach syscall
unconditionally (it has no zero-pid guard); when the OS rejects the
attach, that OS error is propagated to the caller as the failure, the
attach syscall having been performed. -/
theorem c3_attach_propagates_os_error :
    ∀ (os : Os) (pid : Int) (e : Errno), os.attachRes pid = .error e →
      Process.attach os pid = ([.ptraceAttach pid], .err e) := by
  intro os pid e h
  simp [Process.attach, h]

/-- Witness for the amended C3 at pid 0 on the `ESRCH` oracle. -/
theorem c3_attach_propagates_os_error_witness :
    Process.attach osEsrch 0 = ([.ptraceAttach 0], .err .ESRCH) :=
  c3_attach_propagates_os_error osEsrch 0 .ESRCH rfl

/-- Claim C4: when the child's exec fails (the pipe read is non-empty),
`launch` returns an error whose message carries the child's failure
description, the controller's state is `FailedToLaunch`, and disposal of
that controller issues no cleanup syscalls. -/
theorem c4_launch_failure_no_cleanup :
    ∀ (pid : Int) (debug : Bool) (msg : String) (wr : Except Errno WaitStatus),
      msg ≠ "" →
      (Process.launchParent pid debug msg wr).1 =
          .err ("child failed to launch: " ++ msg) ∧
      (Process.launchParent pid debug msg wr).2.state = .FailedToLaunch ∧
      (Process.launchParent pid debug msg wr).2.dropSyscalls = [] := by
  intro pid debug msg wr h
  refine ⟨?_, ?_, ?_⟩ <;>
    simp [Process.launchParent, if_neg h, Process.dropSyscalls]

/-- Witness for C4 at a concrete failed launch. -/
theorem c4_launch_failure_no_cleanup_witness :
    (Process.launchParent 5 true "No such file or directory" (.error .ESRCH)).1 =
        .err ("child failed to launch: " ++ "No such file or directory") ∧
    (Process.launchParent 5 true "No such file or directory" (.error .ESRCH)).2.state =
        .FailedToLaunch ∧
    (Process.launchParent 5 true "No such file or directory" (.error .ESRCH)).2.dropSyscalls =
        [] :=
  c4_launch_failure_no_cleanup 5 true "No such file or directory" (.error .ESRCH) (by decide)

/-- Claim C5: during disposal of a traced controller whose state is
`Running`, the syscall sequence begins with the stop signal and the
blocking wait that observes the resulting stop, and only then the detach
request — a detach is never issued while the tracee is running. -/
theorem c5_detach_only_after_stop :
    ∀ p : Process, p.is_attached = true → p.pid ≠ 0 → p.state = .Running →
      p.dropSyscalls =
        [.kill p.pid .SIGSTOP, .waitpid p.pid, .ptraceDetach p.pid, .kill p.pid .SIGCONT]
          ++ (if p.terminate_on_end then [.kill p.pid .SIGKILL, .waitpid p.pid] else []) := by
  intro p ha hp hs
  simp [Process.dropSyscalls, hp, hs, ha]

/-- Witness for C5: a concrete running, attached, owning controller's
disposal trace, with the detach strictly after the stop and its wait. -/
theorem c5_detach_only_after_stop_witness :
    (⟨9, .Running, true, true⟩ : Process).dropSyscalls =
      [.kill 9 .SIGSTOP, .waitpid 9, .ptraceDetach 9, .kill 9 .SIGCONT,
       .kill 9 .SIGKILL, .waitpid 9] := by
  have h := c5_detach_only_after_stop ⟨9, .Running, true, true⟩ rfl (by decide) rfl
  simpa using h

/-! ## A small kernel model for the state machine (claim C7)

The controller performs no state check of its own in `resume` and
`wait_on_signal` (src/process.rs lines 170-183): it relies on the kernel
refusing `ptrace::cont` and `waitpid` for a process that has been reaped.
The kernel side is modelled here: the tracee is trace-stopped, running, a
zombie awaiting reaping, or reaped; `PTRACE_CONT` succeeds only on a
trace-stopped tracee and fails with `ESRCH` otherwise, and `waitpid` on a
reaped pid fails with `ECHILD`. -/

/-- Kernel-side status of the tracee's pid. -/
inductive KernStatus
  | traceStopped
  | running
  | zombieExit (c : Int)
  | zombieSig (s : Signal)
  | reaped
deriving DecidableEq

/-- Kernel semantics of `ptrace::cont`. -/
def kernCont : KernStatus → Except Errno KernStatus
  | .traceStopped => .ok .running
  | _ => .error .ESRCH

/-- What the tracee does next while runnable (the nondeterminism of the
tracee's own execution, supplied as an oracle). -/
inductive RunEvent
  | exits (c : Int)
  | killedBy (s : Signal)
  | stopsWith (s : Signal)
deriving DecidableEq

/-- Kernel semantics of a blocking `waitpid`: a runnable tracee reports
whatever it does next (exiting or being killed reaps it), a zombie is
reaped and its exit status reported, and a reaped pid yields `ECHILD`. -/
def kernWait (pid : Int) : KernStatus → RunEvent → Except Errno (WaitStatus × KernStatus)
  | .reaped, _ => .error .ECHILD
  | .zombieExit c, _ => .ok (.exited pid c, .reaped)
  | .zombieSig s, _ => .ok (.signaled pid s false, .reaped)
  | .traceStopped, ev | .running, ev =>
    match ev with
    | .exits c => .ok (.exited pid c, .reaped)
    | .killedBy s => .ok (.signaled pid s false, .reaped)
    | .stopsWith s => .ok (.stopped pid s, .traceStopped)

/-- The controller paired with the kernel status of its pid. -/
structure Sys where
  proc : Process
  kern : KernStatus
deriving DecidableEq

/-- The two state-mutating operations callers can issue. -/
inductive Op
  | resume
  | waitStop (ev : RunEvent)
deriving DecidableEq

/-- One operation against the system: `resume` (src/process.rs lines
170-174) sets the state to `Running` only when `ptrace::cont` succeeded
(`?` returns first otherwise); `wait_on_signal` (lines 178-183) adopts
the mapped stop reason's state only when `waitpid` succeeded, and a
`StopReason::new` panic aborts, leaving no further transition. -/
def Sys.step (s : Sys) : Op → Sys
  | .resume =>
    match kernCont s.kern with
    | .error _ => s
    | .ok k => ⟨{ s.proc with state := .Running }, k⟩
  | .waitStop ev =>
    match kernWait s.proc.pid s.kern ev with
    | .error _ => s
    | .ok (ws, k) =>
      match StopReason.mk? ws with
      | none => s
      | some r => ⟨{ s.proc with state := r.process_state }, k⟩

/-- Running a sequence of operations. -/
def Sys.run (s : Sys) (ops : List Op) : Sys :=
  ops.foldl Sys.step s

/-- A controller state the spec calls terminal. -/
def PState.isTerminal (st : PState) : Prop :=
  st = .Exited ∨ st = .Terminated ∨ st = .FailedToLaunch

/-- The coupling invariant behind the terminal states: a controller only
ever observes `Exited` or `Terminated` through a `waitpid` that also
reaped the pid. -/
def SysInv (s : Sys) : Prop :=
  (s.proc.state = .Exited ∨ s.proc.state = .Terminated) → s.kern = .reaped

theorem step_of_reaped (s : Sys) (op : Op) (h : s.kern = .reaped) : s.step op = s := by
  cases op with
  | resume => simp [Sys.step, kernCont, h]
  | waitStop ev => simp [Sys.step, kernWait, h]

theorem run_of_reaped (s : Sys) (ops : List Op) (h : s.kern = .reaped) :
    s.run ops = s := by
  induction ops with
  | nil => rfl
  | cons op rest ih =>
    show (s.step op).run rest = s
    rw [step_of_reaped s op h, ih]

/-- Claim C7: terminal states are absorbing.  (1) Once the pid is reaped —
which is how every reachable `Exited`/`Terminated` controller arises, and
which also covers `FailedToLaunch` — no sequence of `resume` and
`wait_on_signal` operations changes the controller's state, because every
syscall fails before the state assignment.  (2) The coupling invariant
(`Exited`/`Terminated` only with a reaped pid) is preserved by every
operation.  (3) A `FailedToLaunch` controller is never handed to a caller:
a failed launch returns the error, so no operations can be applied to
one. -/
theorem c7_terminal_states_absorbing :
    (∀ (s : Sys) (ops : List Op), s.kern = .reaped → s.proc.state.isTerminal →
      (s.run ops).proc.state = s.proc.state) ∧
    (∀ (s : Sys) (op : Op), SysInv s → SysInv (s.step op)) ∧
    (∀ (pid : Int) (debug : Bool) (msg : String) (wr : Except Errno WaitStatus),
      msg ≠ "" →
      (Process.launchParent pid debug msg wr).1 =
        .err ("child failed to launch: " ++ msg)) := by
  refine ⟨?_, ?_, ?_⟩
  · intro s ops h _
    rw [run_of_reaped s ops h]
  · intro s op hInv
    cases op with
    | resume =>
      cases hk : s.kern <;>
        simp [Sys.step, kernCont, hk, SysInv] at hInv ⊢ <;>
        try exact hInv
    | waitStop ev =>
      cases hk : s.kern <;>
        cases ev <;>
        simp [Sys.step, kernWait, hk, StopReason.mk?, SysInv] at hInv ⊢
  · intro pid debug msg wr h
    simp [Process.launchParent, if_neg h]

/-- Witness for C7: a concrete reaped, exited system stays `Exited` under
a resume followed by a wait; the invariant is preserved by a concrete
resume step from `Stopped`; a concrete failed launch surfaces the error. -/
theorem c7_terminal_states_absorbing_witness :
    (Sys.run ⟨⟨7, .Exited, true, true⟩, .reaped⟩ [.resume, .waitStop (.exits 0)]).proc.state
        = PState.Exited ∧
    SysInv (Sys.step ⟨⟨7, .Stopped, true, true⟩, .traceStopped⟩ .resume) ∧
    (Process.launchParent 5 false "exec failed" (.error .ESRCH)).1 =
        .err ("child failed to launch: " ++ "exec failed") :=
  ⟨c7_terminal_states_absorbing.1 ⟨⟨7, .Exited, true, true⟩, .reaped⟩
      [.resume, .waitStop (.exits 0)] rfl (Or.inl rfl),
   c7_terminal_states_absorbing.2.1 ⟨⟨7, .Stopped, true, true⟩, .traceStopped⟩ .resume
      (fun h => absurd h (by decide)),
   c7_terminal_states_absorbing.2.2 5 false "exec failed" (.error .ESRCH) (by decide)⟩

/-! ## Register subsystem (src/registers.rs, src/reg_macros.rs,
src/registers/values.rs)

The kernel register snapshot (`libc::user`) is an opaque byte buffer; it
is embedded as a total byte map `Nat → Nat` (byte value at each offset),
matching the raw-pointer byte view the source takes of it. -/

/-- `RegisterKind` variants as used by the macros in src/reg_macros.rs. -/
inductive RegisterKind
  | GeneralPurpose
  | SubGeneralPurpose
  | FloatingPoint
  | Debug
deriving DecidableEq

/-- `RegisterFormat` variants as matched in src/registers.rs lines 72-83. -/
inductive RegisterFormat
  | Uint
  | DoubleFloat
  | LongDouble
  | Vector
deriving DecidableEq

/-- `RegisterInfo`: the descriptor fields constructed by every macro in
src/reg_macros.rs and consumed by `Registers::read`/`write` (the
`RegisterId` enum lives in the reginfo module, absent from src/; the
symbolic identity is kept as the `name` string). -/
structure RegisterInfo where
  name : String
  dwarf_id : Int
  size : Nat
  offset : Nat
  kind : RegisterKind
  format : RegisterFormat

/-- `Value` from src/registers.rs lines 12-25 (also
src/registers/values.rs): floats are carried as their raw 8-byte bit
patterns (`F` and `LD` are both `f64` in the source), and the opaque
`Byte64`/`Byte128` payloads as byte maps of the fixed width. -/
inductive Value
  | u8 (v : Nat)
  | u16 (v : Nat)
  | u32 (v : Nat)
  | u64 (v : Nat)
  | i8 (v : Int)
  | i16 (v : Int)
  | i32 (v : Int)
  | i64 (v : Int)
  | f (bits : Nat)
  | ld (bits : Nat)
  | b64 (bs : Fin 8 → Nat)
  | b128 (bs : Fin 16 → Nat)

/-- Little-endian byte decomposition of a machine integer, `len` bytes. -/
def natLeBytes (n : Nat) : Nat → List Nat
  | 0 => []
  | len + 1 => n % 256 :: natLeBytes (n / 256) len

/-- Two's-complement little-endian bytes of a signed integer of `len`
bytes. -/
def intLeBytes (v : Int) (len : Nat) : List Nat :=
  natLeBytes (v.emod (2 ^ (8 * len))).toNat len

/-- `Value::to_bytes`, src/registers.rs lines 32-47: the in-memory
(little-endian x86-64) byte image of the payload, whose length is the
payload's natural size. -/
def Value.toBytes : Value → List Nat
  | .u8 v => natLeBytes v 1
  | .u16 v => natLeBytes v 2
  | .u32 v => natLeBytes v 4
  | .u64 v => natLeBytes v 8
  | .i8 v => intLeBytes v 1
  | .i16 v => intLeBytes v 2
  | .i32 v => intLeBytes v 4
  | .i64 v => intLeBytes v 8
  | .f bits => natLeBytes bits 8
  | .ld bits => natLeBytes bits 8
  | .b64 bs => List.ofFn bs
  | .b128 bs => List.ofFn bs

/-- Little-endian recomposition of a byte list into a machine integer
(`u64::from_le_bytes` on an 8-byte list). -/
def leDecode : List Nat → Nat
  | [] => 0
  | b :: bs => b + 256 * leDecode bs

/-- Reading `len` bytes at `offset` from the snapshot as a little-endian
unsigned integer (`read_value::<uN>` in src/registers.rs lines 50-69,
which is a reinterpreting load on little-endian x86-64). -/
def readLE (data : Nat → Nat) (offset : Nat) : Nat → Nat
  | 0 => 0
  | len + 1 => data offset + 256 * readLE data (offset + 1) len

/-- `copy_from_slice` of `vb` into the snapshot at `start`
(src/registers.rs line 105): bytes inside the written range come from the
value, all others are unchanged. -/
def overlay (data : Nat → Nat) (start : Nat) (vb : List Nat) : Nat → Nat :=
  fun i => if start ≤ i ∧ i < start + vb.length then vb.getD (i - start) 0 else data i

/-- The single word-granular write submitted to the process
(`process.write_user_area(offset, payload)` — the `Process` method itself
is not in src/, so the submission is recorded as data: the user-area
byte offset and the 8-byte payload). -/
structure WriteCall where
  offset : Nat
  payload : Nat
deriving DecidableEq

/-- `Registers::write`, src/registers.rs lines 93-110, verbatim: the
value's own bytes (`value.to_bytes()`, not a widened image) are copied
into the snapshot at `register_info.offset`; then
`u64::from_le_bytes(raw.try_into()?)` is applied to that same sub-slice,
which errors unless the value is exactly 8 bytes long; on success the
8-byte payload is submitted at `register_info.offset` (no alignment
computation occurs anywhere). -/
def Registers.write (data : Nat → Nat) (info : RegisterInfo) (v : Value) :
    Except String ((Nat → Nat) × WriteCall) :=
  let vb := v.toBytes
  let raw := overlay data info.offset vb
  if vb.length = 8 then
    .ok (raw, ⟨info.offset, leDecode vb⟩)
  else
    .error "could not convert slice to array"

/-- `Registers::read`, src/registers.rs lines 71-86, verbatim. -/
def Registers.read (data : Nat → Nat) (info : RegisterInfo) : Except String Value :=
  match info.format with
  | .Uint =>
    match info.size with
    | 1 => .ok (.u8 (readLE data info.offset 1))
    | 2 => .ok (.u16 (readLE data info.offset 2))
    | 4 => .ok (.u32 (readLE data info.offset 4))
    | 8 => .ok (.u64 (readLE data info.offset 8))
    | _ => .error "unexpected size of register"
  | .DoubleFloat => .ok (.f (readLE data info.offset 8))
  | .LongDouble => .ok (.ld (readLE data info.offset 8))
  | .Vector =>
    if info.size = 8 then .ok (.b64 (fun i => data (info.offset + i)))
    else .ok (.b128 (fun i => data (info.offset + i)))

/-- The read path as the spec describes it, transcribed from the spec's
words for comparison with the source's `Registers::read`: unsigned-integer
format with size in 1, 2, 4 or 8 yields the unsigned value of exactly
that size taken at the descriptor's byte offset, any other unsigned size
is a decode error; double-float and extended-float formats yield the
floating values; vector format yields an 8-byte payload when the size is
8 and a 16-byte payload otherwise. -/
def readSpec (data : Nat → Nat) (info : RegisterInfo) : Except String Value :=
  match info.format with
  | .Uint =>
    if info.size = 1 then .ok (.u8 (readLE data info.offset 1))
    else if info.size = 2 then .ok (.u16 (readLE data info.offset 2))
    else if info.size = 4 then .ok (.u32 (readLE data info.offset 4))
    else if info.size = 8 then .ok (.u64 (readLE data info.offset 8))
    else .error "unexpected size of register"
  | .DoubleFloat => .ok (.f (readLE data info.offset 8))
  | .LongDouble => .ok (.ld (readLE data info.offset 8))
  | .Vector =>
    if info.size = 8 then .ok (.b64 (fun i => data (info.offset + i)))
    else .ok (.b128 (fun i => data (info.offset + i)))

/-! ## Claim theorems: C1, C8, C9 -/

/-- A 1-byte low sub-register descriptor as built by `gpr8_lo!`
(src/reg_macros.rs lines 61-74): size 1, at its parent's byte offset
(the parent 64-bit register's offset inside the general-register block,
here the concrete offset 80 of rax on x86-64). -/
def alInfo : RegisterInfo :=
  ⟨"al", -1, 1, 80, .SubGeneralPurpose, .Uint⟩

/-- A 1-byte high sub-register descriptor as built by `gpr8_hi!`
(src/reg_macros.rs lines 46-59): the parent's offset plus 1. -/
def ahInfo : RegisterInfo :=
  ⟨"ah", -1, 1, 81, .SubGeneralPurpose, .Uint⟩

/-- Claim C1 fails on the code: a non-floating-point register write is
claimed to widen the value, overlay its bytes inside the containing
8-byte-aligned word, and submit that whole word.  The source's
`Registers::write` never widens (it uses `value.to_bytes()` directly) and
never computes an aligned word; for any value whose natural size is not
8 bytes the `raw.try_into()` conversion of the value-sized sub-slice
fails, so the write errors out and submits nothing.  Evaluated here at
the failing input: a 1-byte `U8` write against the `al` descriptor. -/
theorem c1_write_not_aligned_word_eval :
    Registers.write (fun _ => 0) alInfo (.u8 127) =
      .error "could not convert slice to array" ∧
    Registers.write (fun _ => 0) alInfo (.u16 513) =
      .error "could not convert slice to array" ∧
    Registers.write (fun _ => 0) alInfo (.u32 9) =
      .error "could not convert slice to array" :=
  ⟨rfl, rfl, rfl⟩

/-- Claim C8 fails on the code: writing a 1-byte sub-register is claimed
to leave the sibling bytes of the aliased 8-byte register unchanged
(after a successful sub-range write).  On the source, the 1-byte write
fails entirely — `u64::from_le_bytes(raw.try_into()?)` rejects the
1-byte slice — so no write reaches the process at all (while the
in-memory snapshot byte has already been mutated before the failure).
Evaluated at the failing input: `U8(171)` against the `ah` descriptor. -/
theorem c8_subregister_write_fails_eval :
    Registers.write (fun _ => 0) ahInfo (.u8 171) =
      .error "could not convert slice to array" ∧
    (overlay (fun _ => 0) ahInfo.offset (Value.toBytes (.u8 171))) 81 = 171 :=
  ⟨rfl, rfl⟩

/-- Claim C9: `Registers::read` decodes exactly as the spec states —
unsigned sizes 1, 2, 4, 8 yield the unsigned value of that size at the
descriptor's offset, any other unsigned size is a decode error,
double-float and extended-float yield floating values, and vector yields
an 8-byte payload at size 8 and a 16-byte payload otherwise. -/
theorem c9_read_decodes_per_spec :
    ∀ (data : Nat → Nat) (info : RegisterInfo),
      Registers.read data info = readSpec data info := by
  intro data info
  obtain ⟨name, dwarf, size, offset, kind, format⟩ := info
  cases format with
  | Uint =>
    rcases size with _ | _ | _ | _ | _ | _ | _ | _ | _ | n <;>
      simp [Registers.read, readSpec]
  | DoubleFloat => rfl
  | LongDouble => rfl
  | Vector => rfl

end Kitt
